/-
Verification of the avatar-pipeline backend (FastAPI + pipeline orchestrator).

Shallow embedding of the job-lifecycle core:
  * `src/backend/main.py`     — job store, upload, background task, status query,
                                output-fetch endpoints;
  * `src/backend/pipeline.py` — `AvatarPipeline.process_avatar`, the four-stage
                                sequential orchestrator;
  * `src/backend/services/three_d_generator.py` — the bounded polling loop of
                                `ThreeDGenerator.generate_3d_model`;
  * `src/backend/services/face_detector.py` — `FaceDetector.detect_face`.

Conventions of the embedding: Python dict-valued job records become a
`JobRecord` structure; stage adapters become `AdapterBehavior` values (a
structured outcome, or a raised exception); wall-clock time in the polling
loop advances by `poll_interval` at each mandatory sleep and a check itself
takes no model time; Python float ratios become exact rationals.
-/
import Mathlib

namespace Avatar

/-- Job `status` field values: "pending", "processing", "completed", "failed". -/
inductive Status
  | pending
  | processing
  | completed
  | failed
deriving DecidableEq, Repr

/-- The `current_step` values written by `update_job_status` via the pipeline
status callback: the four stage names plus "completed" and "failed".
`gen3d` renders the source string "3d_generation". -/
inductive Step
  | face_detection
  | cartoonization
  | gen3d
  | optimization
  | completed
  | failed
deriving DecidableEq, Repr

/-- The string key a `Step` value uses in the `progress_map` dict of
`get_status` (main.py). -/
def Step.key : Step → String
  | .face_detection => "face_detection"
  | .cartoonization => "cartoonization"
  | .gen3d => "3d_generation"
  | .optimization => "optimization"
  | .completed => "completed"
  | .failed => "failed"

/-- The string key a `Status` value uses in the `progress_map` dict. -/
def Status.key : Status → String
  | .pending => "pending"
  | .processing => "processing"
  | .completed => "completed"
  | .failed => "failed"

/-- The `progress_map` dict literal of `get_status` (main.py lines 211-219). -/
def progress_map : List (String × Nat) :=
  [("pending", 0), ("face_detection", 10), ("cartoonization", 30),
   ("3d_generation", 60), ("optimization", 85), ("completed", 100), ("failed", 0)]

/-- Python `d.get(k, default)` on an association list; `k = none` renders a
`None` key, which is absent from `progress_map`. -/
def dictGetD (m : List (String × Nat)) (k : Option String) (d : Nat) : Nat :=
  match k with
  | none => d
  | some s => ((m.lookup s).getD d)

/-- The progress computation of `get_status` (main.py lines 210-223):
`progress = progress_map.get(current_step, progress_map.get(status, 0))`,
then overridden to 100 when the status is "completed". -/
def get_status_progress (status : Status) (current_step : Option Step) : Nat :=
  let p := dictGetD progress_map (current_step.map Step.key)
    (dictGetD progress_map (some status.key) 0)
  if status = Status.completed then 100 else p

/-- The uniform adapter return contract: every service returns a dict with a
`success` flag and a `message`; the orchestrator reads exactly these two. -/
structure StageOutcome where
  success : Bool
  message : String
deriving DecidableEq, Repr

/-- What a stage adapter does when invoked: return a structured outcome, or
raise an exception carrying a message (`str(e)`). -/
inductive AdapterBehavior
  | returns (o : StageOutcome)
  | throws (msg : String)
deriving DecidableEq, Repr

/-- The four pipeline stages, named after the services they delegate to. -/
inductive StageName
  | faceCheck
  | cartoonize
  | generate3d
  | optimizeMesh
deriving DecidableEq, Repr

/-- The fixed stage order of `AvatarPipeline.process_avatar`. -/
def stageOrder : List StageName :=
  [StageName.faceCheck, StageName.cartoonize, StageName.generate3d, StageName.optimizeMesh]

/-- The `current_step` string each stage reports through the status callback. -/
def StageName.step : StageName → Step
  | .faceCheck => Step.face_detection
  | .cartoonize => Step.cartoonization
  | .generate3d => Step.gen3d
  | .optimizeMesh => Step.optimization

/-- The "starting" message each stage sends to the status callback
(pipeline.py lines 96, 116-119, 143-146, 170-173). -/
def startMessage : StageName → String
  | .faceCheck => "Detecting face..."
  | .cartoonize => "Creating Pixar-style cartoon (30-60s)..."
  | .generate3d => "Generating 3D model (2-3 minutes)..."
  | .optimizeMesh => "Optimizing mesh for printing..."

/-- The per-stage success callback emitted after each of the first three
stages; the fourth stage has none of its own (the terminal "completed"
callback follows instead, pipeline.py lines 191-195). -/
def doneCallbacks : StageName → List (Step × String)
  | .faceCheck => [(Step.face_detection, "Face detected successfully!")]
  | .cartoonize => [(Step.cartoonization, "Cartoonization complete!")]
  | .generate3d => [(Step.gen3d, "3D model generated!")]
  | .optimizeMesh => []

/-- The artifact paths `process_avatar` derives from the output dir and the
job id (pipeline.py lines 84-86), plus the raw input path. -/
structure PipelinePaths where
  input_path : String
  cartoon_path : String
  model_3d_path : String
  stl_path : String
deriving DecidableEq, Repr

/-- Path construction from pipeline.py lines 84-86. -/
def pipelinePaths (output_dir job_id input_path : String) : PipelinePaths :=
  { input_path := input_path
    cartoon_path := output_dir ++ "/cartoonized/" ++ job_id ++ "_cartoon.png"
    model_3d_path := output_dir ++ "/models_3d/" ++ job_id ++ "_model.glb"
    stl_path := output_dir ++ "/stl_files/" ++ job_id ++ "_avatar.stl" }

/-- The input artifact each stage adapter is invoked with (pipeline.py:
`detect_face(input_path)`, `cartoonize(input_path, ...)`,
`generate_3d_model(cartoon_path, ...)`, `optimize_for_printing(model_3d_path, ...)`). -/
def stageInput (p : PipelinePaths) : StageName → String
  | .faceCheck => p.input_path
  | .cartoonize => p.input_path
  | .generate3d => p.cartoon_path
  | .optimizeMesh => p.model_3d_path

/-- The `output_files` dict returned on full success (pipeline.py lines 203-207). -/
def outputFilesList (p : PipelinePaths) : List (String × String) :=
  [("cartoon", p.cartoon_path), ("model_3d", p.model_3d_path), ("stl", p.stl_path)]

/-- Result of one `process_avatar` run: the returned dict's `success`,
`error` and `output_files` entries, plus the bookkeeping an observer sees —
which adapters were invoked with which input, and the `(step, message)`
callback sequence. -/
structure RunState where
  success : Bool
  error : Option String
  output_files : Option (List (String × String))
  invoked : List (StageName × String)
  callbacks : List (Step × String)
deriving DecidableEq, Repr

/-- The stage loop of `AvatarPipeline.process_avatar` (pipeline.py lines
95-210): run the given stages in order; each stage first sends its
"starting" callback, then its adapter runs; on `success=false` the loop
sends a "failed" callback and returns `success=False, error=message` at
once; an adapter exception reaches the outer handler (line 212), which
sends a "failed" callback with `"Pipeline error: " + str(e)`; exhausting
all stages sends the "completed" callback and returns the output-file map. -/
def runStages (behave : StageName → AdapterBehavior) (p : PipelinePaths) :
    List StageName → RunState
  | [] =>
    { success := true, error := none, output_files := some (outputFilesList p),
      invoked := [], callbacks := [(Step.completed, "Avatar ready for printing!")] }
  | s :: rest =>
    match behave s with
    | .returns o =>
      if o.success then
        let r := runStages behave p rest
        { r with invoked := (s, stageInput p s) :: r.invoked,
                 callbacks := (s.step, startMessage s) :: (doneCallbacks s ++ r.callbacks) }
      else
        { success := false, error := some o.message, output_files := none,
          invoked := [(s, stageInput p s)],
          callbacks := [(s.step, startMessage s), (Step.failed, o.message)] }
    | .throws m =>
      { success := false, error := some ("Pipeline error: " ++ m), output_files := none,
        invoked := [(s, stageInput p s)],
        callbacks := [(s.step, startMessage s), (Step.failed, "Pipeline error: " ++ m)] }

/-- Runs `AvatarPipeline.process_avatar` over the fixed stage order. -/
def process_avatar (behave : StageName → AdapterBehavior) (p : PipelinePaths) : RunState :=
  runStages behave p stageOrder

/-- One job record of the in-memory `jobs` dict (main.py line 42); fields
absent from the Python dict are `none`. -/
structure JobRecord where
  status : Status
  current_step : Option Step := none
  last_message : Option String := none
  output_files : Option (List (String × String)) := none
  error : Option String := none
deriving DecidableEq, Repr

/-- The record `upload_photo` creates (main.py lines 170-177): only
`status = "pending"` and identifying metadata, no step/outputs/error. -/
def freshJob : JobRecord := { status := Status.pending }

/-- Models `update_job_status` (main.py lines 66-72): the pipeline status callback
overwrites `current_step` and `last_update`; it never touches `status`. -/
def update_job_status (j : JobRecord) (step : Step) (message : String) : JobRecord :=
  { j with current_step := some step, last_message := some message }

/-- Apply the whole callback sequence of a run to a job record. -/
def applyCallbacks (j : JobRecord) (cbs : List (Step × String)) : JobRecord :=
  cbs.foldl (fun acc c => update_job_status acc c.1 c.2) j

/-- Models `process_avatar_background` (main.py lines 74-101): mark the job
"processing", run the pipeline (its callbacks updating the record), then
record the terminal state: "completed" with the result's `output_files` on
success, otherwise "failed" with `result.get("error", "Unknown error")`;
any exception escaping to the task's own handler records "failed" with
`str(e)`. -/
def process_avatar_background (job : JobRecord) (outcome : Except String RunState) :
    JobRecord :=
  let j := { job with status := Status.processing }
  match outcome with
  | .error e => { j with status := Status.failed, error := some e }
  | .ok run =>
    let j2 := applyCallbacks j run.callbacks
    if run.success then
      { j2 with status := Status.completed, output_files := run.output_files }
    else
      { j2 with status := Status.failed, error := some (run.error.getD ("Unknown error")) }

/-- The job record at the end of a full lifecycle started from a fresh
pending record. -/
def finalRecord (outcome : Except String RunState) : JobRecord :=
  process_avatar_background freshJob outcome

/-- The sequence of values written to the job's `status` field over its
lifetime: "pending" at creation (upload_photo line 173), "processing" at
background-task start (line 79), then exactly one terminal write (lines
91/95/100). No other code writes `status`. -/
def statusTrace (outcome : Except String RunState) : List Status :=
  [Status.pending, Status.processing, (finalRecord outcome).status]

/-- Rank of a status in the Pending -> Processing -> terminal order. -/
def statusRank : Status → Nat
  | .pending => 0
  | .processing => 1
  | .completed => 2
  | .failed => 2

/-- Terminal statuses. -/
def Status.isTerminal : Status → Bool
  | .completed => true
  | .failed => true
  | _ => false

/-- The error message a stage's abort produces in `process_avatar`:
a structured failure returns its own message; a raised exception is funneled
through the outer handler into `"Pipeline error: " + str(e)`. `none` means
the stage succeeds. -/
def abortError : AdapterBehavior → Option String
  | .returns o => if o.success then none else some o.message
  | .throws m => some ("Pipeline error: " ++ m)

/-- Stage at position `k` of the fixed order (defaulting past the end). -/
def stageAt (k : Nat) : StageName := stageOrder.getD k StageName.optimizeMesh

/-- Spec-side progress table, written from the claim wording alone, to be
compared with `get_status_progress` from the source: progress is a pure
function of `currentStep` and `status`; Completed reports 100; the steps
report 10/30/60/85; Pending (no step yet) reports 0. -/
def progressSpecTable (status : Status) (current_step : Option Step) : Nat :=
  if status = Status.completed then 100
  else
    match current_step with
    | some Step.face_detection => 10
    | some Step.cartoonization => 30
    | some Step.gen3d => 60
    | some Step.optimization => 85
    | some Step.completed => 100
    | some Step.failed => 0
    | none => 0

/-! ### The bounded polling loop of `ThreeDGenerator.generate_3d_model` -/

/-- One status-check result as `_check_status` returns it
(three_d_generator.py lines 177-205): the provider's status string plus the
model url and error text when present. -/
structure CheckStatus where
  status : String
  model_url : Option String := none
  err : Option String := none
deriving DecidableEq, Repr

/-- Outcome of the polling phase of `generate_3d_model`: the downloaded
model's url on success, or the failure message the dict carries. -/
inductive GenOutcome
  | success (model_url : String)
  | failure (message : String)
deriving DecidableEq, Repr

/-- The timeout message of three_d_generator.py line 85. -/
def timedOutMessage (timeout : Nat) : String :=
  "3D generation timed out after " ++ toString timeout ++ "s"

/-- The polling loop of `generate_3d_model` (three_d_generator.py lines
78-131), with wall-clock time modelled logically: the `k`-th status check
sees `check k`; a check itself takes no model time; the mandatory
`time.sleep(poll_interval)` between checks advances `elapsed` by
`interval`. Each iteration first compares `elapsed > timeout` (line 81) and
returns the timed-out failure dict; otherwise it checks: `"SUCCEEDED"`
downloads and returns the model, `"FAILED"` returns the provider's error,
and anything else (PENDING, IN_PROGRESS, or unknown) sleeps and loops.
`fuel` bounds the recursion; `pollWait` supplies enough fuel for any
positive interval, and `pollLoop` returns `none` only on fuel exhaustion. -/
def pollLoop (check : Nat → CheckStatus) (timeout interval : Nat) :
    Nat → Nat → Nat → Option (GenOutcome × Nat)
  | 0, elapsed, calls =>
    if timeout < elapsed then some (GenOutcome.failure (timedOutMessage timeout), calls)
    else none
  | fuel + 1, elapsed, calls =>
    if timeout < elapsed then some (GenOutcome.failure (timedOutMessage timeout), calls)
    else if (check calls).status = "SUCCEEDED" then
      some (GenOutcome.success ((check calls).model_url.getD ("")), calls + 1)
    else if (check calls).status = "FAILED" then
      some (GenOutcome.failure
        ("3D generation failed: " ++ (check calls).err.getD ("Unknown error")), calls + 1)
    else
      pollLoop check timeout interval fuel (elapsed + interval) (calls + 1)

/-- The whole polling wait, from elapsed time 0 and zero checks made, with
fuel `timeout + 2` (sufficient whenever `interval ≥ 1`, see
`pollWait_isSome`). Returns the outcome paired with the number of
`_check_status` calls made. -/
def pollWait (check : Nat → CheckStatus) (timeout interval : Nat) :
    Option (GenOutcome × Nat) :=
  pollLoop check timeout interval (timeout + 2) 0 0

/-- A check result on which the loop keeps polling (neither terminal
status). -/
def stillPending (st : CheckStatus) : Prop :=
  st.status ≠ "SUCCEEDED" ∧ st.status ≠ "FAILED"

instance (st : CheckStatus) : Decidable (stillPending st) := by
  unfold stillPending
  infer_instance

/-! ### `FaceDetector.detect_face` -/

/-- An input image as the face-mesh collaborator reports it: pixel
dimensions, and for each detected face its landmark pixel coordinates. The
first landmark is kept apart so a reported face always has at least one
landmark, as MediaPipe always reports its full fixed landmark mesh. -/
structure FaceImage where
  width : Nat
  height : Nat
  faces : List ((Int × Int) × List (Int × Int))
deriving DecidableEq, Repr

/-- Landmark bounding box (face_detector.py lines 83-91). -/
structure BoundingBox where
  x_min : Int
  y_min : Int
  x_max : Int
  y_max : Int
deriving DecidableEq, Repr

/-- Bounding box of a nonempty landmark set. -/
def boundingBox (p0 : Int × Int) (ps : List (Int × Int)) : BoundingBox :=
  { x_min := ps.foldl (fun a q => min a q.1) p0.1
    y_min := ps.foldl (fun a q => min a q.2) p0.2
    x_max := ps.foldl (fun a q => max a q.1) p0.1
    y_max := ps.foldl (fun a q => max a q.2) p0.2 }

/-- Bounding-box width `x_max - x_min`. -/
def BoundingBox.w (b : BoundingBox) : Int := b.x_max - b.x_min

/-- Bounding-box height `y_max - y_min`. -/
def BoundingBox.h (b : BoundingBox) : Int := b.y_max - b.y_min

/-- The `face_area_ratio` of face_detector.py line 94, as an exact rational:
bounding-box area over image area. -/
def faceFrac (img : FaceImage) (f : (Int × Int) × List (Int × Int)) : ℚ :=
  ((((boundingBox f.1 f.2).w * (boundingBox f.1 f.2).h : Int) : ℚ)) /
    ((img.width : ℚ) * (img.height : ℚ))

/-- The dict `detect_face` returns, restricted to the fields the claims
read. -/
structure FaceResult where
  success : Bool
  face_found : Bool
  message : String
  bounding_box : Option BoundingBox
  face_area_frac : Option ℚ
deriving DecidableEq, Repr

/-- Models `FaceDetector.detect_face` (face_detector.py lines 26-125): no face
reported fails; a face whose bounding-box area is under 5 percent or over
90 percent of the image area fails; otherwise success with the diagnostic
ratio. Thresholds 0.05 and 0.9 are the source literals as exact rationals. -/
def detect_face (img : FaceImage) : FaceResult :=
  match img.faces with
  | [] =>
    { success := false, face_found := false, bounding_box := none,
      face_area_frac := none,
      message := "No face detected in image. Please use a clear front-facing portrait." }
  | f :: _ =>
    let b := boundingBox f.1 f.2
    if faceFrac img f < 5 / 100 then
      { success := false, face_found := true, bounding_box := some b,
        face_area_frac := none,
        message := "Face is too small in image. Please use a closer portrait photo." }
    else if (9 : ℚ) / 10 < faceFrac img f then
      { success := false, face_found := true, bounding_box := some b,
        face_area_frac := none,
        message := "Face is too close. Please use a photo with some space around the face." }
    else
      { success := true, face_found := true, bounding_box := some b,
        face_area_frac := some (faceFrac img f),
        message := "Face detected successfully!" }

/-! ### Boundary endpoints of main.py -/

/-- Query-time errors of the boundary endpoints. `internalFault` renders an
unhandled Python exception (HTTP 500), reachable only on a record whose
shape the pipeline never produces. -/
inductive ApiError
  | notFound
  | notReady (status : Status)
  | missingArtifact
  | internalFault
deriving DecidableEq, Repr

/-- The body of a `/status/{job_id}` response (the `JobStatus` model). -/
structure JobStatusResponse where
  job_id : String
  status : Status
  progress : Nat
  message : String
  current_step : Option Step
  output_files : Option (List (String × String))
  error : Option String
deriving DecidableEq, Repr

/-- Models `get_status` (main.py lines 189-233): 404 on unknown id, otherwise the
record's fields with progress computed by `get_status_progress`. -/
def get_status (store : List (String × JobRecord)) (job_id : String) :
    Except ApiError JobStatusResponse :=
  match store.lookup job_id with
  | none => Except.error ApiError.notFound
  | some job =>
    Except.ok
      { job_id := job_id
        status := job.status
        progress := get_status_progress job.status job.current_step
        message := job.last_message.getD ("Status: " ++ job.status.key)
        current_step := job.current_step
        output_files := job.output_files
        error := job.error }

/-- The three fetchable artifact kinds and their `output_files` keys. -/
inductive ArtifactKind
  | cartoon
  | model3d
  | stl
deriving DecidableEq, Repr

/-- The `output_files` dict key of each artifact kind. -/
def ArtifactKind.key : ArtifactKind → String
  | .cartoon => "cartoon"
  | .model3d => "model_3d"
  | .stl => "stl"

/-- The common shape of `get_preview`, `download_stl` and
`download_cartoon` (main.py lines 236-335), which differ only in the
`output_files` key and media type: 404 on unknown id; 400 while the job is
not completed; 404 ("file not found") when the recorded path does not exist
on disk; otherwise the file at the recorded path. `fileExists` abstracts
`Path.exists()`. A completed record lacking the key would raise `KeyError`
in Python (HTTP 500), rendered `internalFault`. -/
def fetch_output (store : List (String × JobRecord)) (fileExists : String → Bool)
    (job_id : String) (kind : ArtifactKind) : Except ApiError String :=
  match store.lookup job_id with
  | none => Except.error ApiError.notFound
  | some job =>
    if job.status = Status.completed then
      match (job.output_files.getD []).lookup kind.key with
      | none => Except.error ApiError.internalFault
      | some path =>
        if fileExists path then Except.ok path
        else Except.error ApiError.missingArtifact
    else Except.error (ApiError.notReady job.status)

/-- The response of `upload_photo`. -/
inductive UploadResponse
  | rejected (code : Nat) (detail : String)
  | accepted (job_id : String) (status : Status) (message : String)
deriving DecidableEq, Repr

/-- What an upload call leaves behind: the job store, the response, and the
background tasks scheduled (by job id). -/
structure UploadEffect where
  store : List (String × JobRecord)
  response : UploadResponse
  scheduled : List String
deriving DecidableEq, Repr

/-- Models `upload_photo` (main.py lines 115-186): reject with 413 when the upload
exceeds the size limit (strict `>`); reject with 400 with the validator's
message when `validate_image_file` fails (the saved file is deleted);
otherwise create the Pending record and schedule
`process_avatar_background` — no pipeline stage runs inside the call. The
size/format validation verdict is the collaborator input `(valid, vmsg)`;
`file_size_mb` is exact where Python uses a float quotient. -/
def upload_photo (store : List (String × JobRecord)) (job_id : String)
    (file_size_mb max_mb : ℚ) (valid : Bool) (vmsg : String) : UploadEffect :=
  if max_mb < file_size_mb then
    { store := store
      response := UploadResponse.rejected 413 ("File too large")
      scheduled := [] }
  else if valid = false then
    { store := store
      response := UploadResponse.rejected 400 vmsg
      scheduled := [] }
  else
    { store := (job_id, freshJob) :: store
      response := UploadResponse.accepted job_id Status.pending
        ("Photo uploaded successfully. Processing started.")
      scheduled := [job_id] }

/-! ### Concrete inputs used by the witness theorems -/

/-- Concrete pipeline paths. -/
def wPaths : PipelinePaths := pipelinePaths ("output") ("job1") ("output/uploads/job1_photo.png")

/-- Adapters that all succeed. -/
def wBehaveOK : StageName → AdapterBehavior :=
  fun _ => AdapterBehavior.returns { success := true, message := "ok" }

/-- Adapters where the second stage reports a structured failure. -/
def wBehaveFailCartoon : StageName → AdapterBehavior := fun s =>
  match s with
  | StageName.cartoonize =>
    AdapterBehavior.returns { success := false, message := "Cartoonization failed" }
  | _ => AdapterBehavior.returns { success := true, message := "ok" }

/-- Adapters where the third stage raises instead of returning. -/
def wBehaveThrow : StageName → AdapterBehavior := fun s =>
  match s with
  | StageName.generate3d => AdapterBehavior.throws ("connection reset")
  | _ => AdapterBehavior.returns { success := true, message := "ok" }

/-- A check function: still pending twice, then terminal success. -/
def wCheckPendingTwice : Nat → CheckStatus := fun k =>
  if k < 2 then { status := "IN_PROGRESS" }
  else { status := "SUCCEEDED", model_url := some ("https://assets/model.glb") }

/-- A check function that never reaches a terminal state. -/
def wCheckNever : Nat → CheckStatus := fun _ => { status := "PENDING" }

/-- An image whose single face covers 9 percent of the frame. -/
def wImgGood : FaceImage :=
  { width := 100, height := 100, faces := [((10, 10), [(40, 40)])] }

/-- An image whose single face covers 0.04 percent of the frame. -/
def wImgSmallFace : FaceImage :=
  { width := 100, height := 100, faces := [((10, 10), [(12, 12)])] }

/-- A completed job record as the background task leaves it. -/
def wDoneRecord : JobRecord := finalRecord (Except.ok (process_avatar wBehaveOK wPaths))

/-- A failed job record as the background task leaves it. -/
def wFailRecord : JobRecord :=
  finalRecord (Except.ok (process_avatar wBehaveFailCartoon wPaths))

/-- A two-job store with one completed and one failed job. -/
def wStore : List (String × JobRecord) := [("done", wDoneRecord), ("bad", wFailRecord)]

/-! ### Helper lemmas about the embedding -/

theorem applyCallbacks_status (j : JobRecord) (cbs : List (Step × String)) :
    (applyCallbacks j cbs).status = j.status := by
  induction cbs generalizing j with
  | nil => rfl
  | cons c cs ih =>
    simpa [applyCallbacks, update_job_status] using ih (update_job_status j c.1 c.2)

theorem applyCallbacks_output_files (j : JobRecord) (cbs : List (Step × String)) :
    (applyCallbacks j cbs).output_files = j.output_files := by
  induction cbs generalizing j with
  | nil => rfl
  | cons c cs ih =>
    simpa [applyCallbacks, update_job_status] using ih (update_job_status j c.1 c.2)

theorem applyCallbacks_error (j : JobRecord) (cbs : List (Step × String)) :
    (applyCallbacks j cbs).error = j.error := by
  induction cbs generalizing j with
  | nil => rfl
  | cons c cs ih =>
    simpa [applyCallbacks, update_job_status] using ih (update_job_status j c.1 c.2)

theorem applyCallbacks_current_step (j : JobRecord) (cbs : List (Step × String))
    (c : Step × String) (h : cbs.getLast? = some c) :
    (applyCallbacks j cbs).current_step = some c.1 := by
  induction cbs generalizing j with
  | nil => simp at h
  | cons d ds ih =>
    cases ds with
    | nil =>
      simp only [List.getLast?_singleton, Option.some.injEq] at h
      subst h
      rfl
    | cons e es =>
      have h2 : (e :: es).getLast? = some c := by
        simpa [List.getLast?_cons_cons] using h
      simpa [applyCallbacks, update_job_status] using
        ih (update_job_status j d.1 d.2) h2

/-- A run reporting success carries the full three-entry output map. -/
theorem runStages_success_outputs (behave : StageName → AdapterBehavior)
    (p : PipelinePaths) (l : List StageName)
    (h : (runStages behave p l).success = true) :
    (runStages behave p l).output_files = some (outputFilesList p) := by
  induction l with
  | nil => rfl
  | cons s rest ih =>
    cases hb : behave s with
    | returns o =>
      by_cases hs : o.success
      · simpa [runStages, hb, hs] using ih (by simpa [runStages, hb, hs] using h)
      · simp [runStages, hb, hs] at h
    | throws m => simp [runStages, hb] at h

/-- A run reporting failure carries no output map and some error message,
and its callback sequence ends with a "failed" callback. -/
theorem runStages_fail_shape (behave : StageName → AdapterBehavior)
    (p : PipelinePaths) (l : List StageName)
    (h : (runStages behave p l).success = false) :
    (runStages behave p l).output_files = none ∧
    (∃ e, (runStages behave p l).error = some e ∧
      (runStages behave p l).callbacks.getLast? = some (Step.failed, e)) := by
  induction l with
  | nil => simp [runStages] at h
  | cons s rest ih =>
    cases hb : behave s with
    | returns o =>
      by_cases hs : o.success
      · have h' : (runStages behave p rest).success = false := by
          simpa [runStages, hb, hs] using h
        obtain ⟨h1, e, h2, h3⟩ := ih h'
        refine ⟨by simpa [runStages, hb, hs] using h1, e,
          by simpa [runStages, hb, hs] using h2, ?_⟩
        have hne : (runStages behave p rest).callbacks ≠ [] := by
          intro hnil
          rw [hnil] at h3
          simp at h3
        simp only [runStages, hb, hs, if_pos]
        rw [show (s.step, startMessage s) ::
              (doneCallbacks s ++ (runStages behave p rest).callbacks) =
            ((s.step, startMessage s) :: doneCallbacks s) ++
              (runStages behave p rest).callbacks from rfl]
        rw [List.getLast?_append_of_ne_nil _ hne]
        exact h3
      · refine ⟨by simp [runStages, hb, hs], o.message,
          by simp [runStages, hb, hs], ?_⟩
        simp [runStages, hb, hs]
    | throws m =>
      refine ⟨by simp [runStages, hb], "Pipeline error: " ++ m,
        by simp [runStages, hb], ?_⟩
      simp [runStages, hb]

/-- Every recorded adapter invocation carries exactly the input artifact
`stageInput` prescribes for that stage. -/
theorem runStages_invoked_input (behave : StageName → AdapterBehavior)
    (p : PipelinePaths) (l : List StageName) (s : StageName) (x : String)
    (h : (s, x) ∈ (runStages behave p l).invoked) : x = stageInput p s := by
  induction l with
  | nil => simp [runStages] at h
  | cons t rest ih =>
    cases hb : behave t with
    | returns o =>
      cases hso : o.success with
      | false =>
        simp only [runStages, hb, hso, Bool.false_eq_true, if_false,
          List.mem_singleton, Prod.mk.injEq] at h
        obtain ⟨rfl, hx⟩ := h
        exact hx
      | true =>
        simp only [runStages, hb, hso, if_true, List.mem_cons, Prod.mk.injEq] at h
        rcases h with ⟨rfl, hx⟩ | h2
        · exact hx
        · exact ih h2
    | throws m =>
      simp only [runStages, hb, List.mem_singleton, Prod.mk.injEq] at h
      obtain ⟨rfl, hx⟩ := h
      exact hx

/-- If every stage before `s` succeeds and `s` aborts (structured failure
or exception), the stage loop stops at `s`: the run fails with the abort
message and exactly the stages up to and including `s` were invoked. -/
theorem runStages_abort (behave : StageName → AdapterBehavior) (p : PipelinePaths)
    (pre : List StageName) (s : StageName) (rest : List StageName) (err : String)
    (hpre : ∀ t ∈ pre, ∃ msg, behave t = AdapterBehavior.returns ⟨true, msg⟩)
    (hs : abortError (behave s) = some err) :
    (runStages behave p (pre ++ s :: rest)).success = false ∧
    (runStages behave p (pre ++ s :: rest)).error = some err ∧
    (runStages behave p (pre ++ s :: rest)).invoked =
      (pre ++ [s]).map (fun t => (t, stageInput p t)) := by
  induction pre with
  | nil =>
    cases hb : behave s with
    | returns o =>
      rw [hb] at hs
      by_cases ho : o.success
      · simp [abortError, ho] at hs
      · have hmsg : some o.message = some err := by
          simpa [abortError, ho] using hs
        simp only [List.nil_append, List.map_cons, List.map_nil]
        refine ⟨by simp [runStages, hb, ho], ?_, by simp [runStages, hb, ho]⟩
        rw [← hmsg]
        simp [runStages, hb, ho]
    | throws m =>
      rw [hb] at hs
      have hmsg : some ("Pipeline error: " ++ m) = some err := by
        simpa [abortError] using hs
      simp only [List.nil_append, List.map_cons, List.map_nil]
      refine ⟨by simp [runStages, hb], ?_, by simp [runStages, hb]⟩
      rw [← hmsg]
      simp [runStages, hb]
  | cons t pre ih =>
    obtain ⟨msg, hmsg⟩ := hpre t (List.mem_cons_self t pre)
    have hpre' : ∀ u ∈ pre, ∃ m2, behave u = AdapterBehavior.returns ⟨true, m2⟩ :=
      fun u hu => hpre u (List.mem_cons_of_mem t hu)
    obtain ⟨h1, h2, h3⟩ := ih hpre'
    refine ⟨?_, ?_, ?_⟩
    · simpa [runStages, hmsg] using h1
    · simpa [runStages, hmsg] using h2
    · simp only [List.cons_append, runStages, hmsg, if_pos]
      simp only [List.map_cons]
      rw [← h3]
      rfl

/-- The lemma `runStages_abort` lifted to the fixed stage order, indexed by the stage
position `K`. -/
theorem abort_at_stage (behave : StageName → AdapterBehavior) (p : PipelinePaths)
    (K : Fin 4) (err : String)
    (hpre : ∀ j : Nat, j < K.val →
      ∃ msg, behave (stageAt j) = AdapterBehavior.returns ⟨true, msg⟩)
    (habort : abortError (behave (stageAt K.val)) = some err) :
    (process_avatar behave p).success = false ∧
    (process_avatar behave p).error = some err ∧
    (process_avatar behave p).invoked.map Prod.fst = stageOrder.take (K.val + 1) ∧
    (∀ j : Nat, K.val < j → j < 4 →
      stageAt j ∉ (process_avatar behave p).invoked.map Prod.fst) := by
  fin_cases K
  · obtain ⟨h1, h2, h3⟩ := runStages_abort behave p [] StageName.faceCheck
      [StageName.cartoonize, StageName.generate3d, StageName.optimizeMesh] err
      (by intro t ht; simp at ht) habort
    have hfst : (process_avatar behave p).invoked.map Prod.fst =
        [StageName.faceCheck] := by
      have h3' : (process_avatar behave p).invoked =
          ([] ++ [StageName.faceCheck]).map (fun t => (t, stageInput p t)) := h3
      rw [h3']
      simp
    refine ⟨h1, h2, hfst, ?_⟩
    intro j hj1 hj2
    rw [hfst]
    have hj1' : 0 < j := hj1
    interval_cases j <;> decide
  · obtain ⟨h1, h2, h3⟩ := runStages_abort behave p [StageName.faceCheck]
      StageName.cartoonize [StageName.generate3d, StageName.optimizeMesh] err
      (by
        intro t ht
        fin_cases ht
        exact hpre 0 (by decide)) habort
    have hfst : (process_avatar behave p).invoked.map Prod.fst =
        [StageName.faceCheck, StageName.cartoonize] := by
      have h3' : (process_avatar behave p).invoked =
          ([StageName.faceCheck] ++ [StageName.cartoonize]).map
            (fun t => (t, stageInput p t)) := h3
      rw [h3']
      simp
    refine ⟨h1, h2, hfst, ?_⟩
    intro j hj1 hj2
    rw [hfst]
    have hj1' : 1 < j := hj1
    interval_cases j <;> decide
  · obtain ⟨h1, h2, h3⟩ := runStages_abort behave p
      [StageName.faceCheck, StageName.cartoonize] StageName.generate3d
      [StageName.optimizeMesh] err
      (by
        intro t ht
        fin_cases ht
        · exact hpre 0 (by decide)
        · exact hpre 1 (by decide)) habort
    have hfst : (process_avatar behave p).invoked.map Prod.fst =
        [StageName.faceCheck, StageName.cartoonize, StageName.generate3d] := by
      have h3' : (process_avatar behave p).invoked =
          ([StageName.faceCheck, StageName.cartoonize] ++ [StageName.generate3d]).map
            (fun t => (t, stageInput p t)) := h3
      rw [h3']
      simp
    refine ⟨h1, h2, hfst, ?_⟩
    intro j hj1 hj2
    rw [hfst]
    have hj1' : 2 < j := hj1
    interval_cases j <;> decide
  · obtain ⟨h1, h2, h3⟩ := runStages_abort behave p
      [StageName.faceCheck, StageName.cartoonize, StageName.generate3d]
      StageName.optimizeMesh [] err
      (by
        intro t ht
        fin_cases ht
        · exact hpre 0 (by decide)
        · exact hpre 1 (by decide)
        · exact hpre 2 (by decide)) habort
    have hfst : (process_avatar behave p).invoked.map Prod.fst =
        [StageName.faceCheck, StageName.cartoonize, StageName.generate3d,
          StageName.optimizeMesh] := by
      have h3' : (process_avatar behave p).invoked =
          ([StageName.faceCheck, StageName.cartoonize, StageName.generate3d] ++
            [StageName.optimizeMesh]).map (fun t => (t, stageInput p t)) := h3
      rw [h3']
      simp
    refine ⟨h1, h2, hfst, ?_⟩
    intro j hj1 hj2
    rw [hfst]
    have hj1' : 3 < j := hj1
    omega

/-- The terminal write of `process_avatar_background` is always Completed or
Failed, on every path including the exception handler. -/
theorem background_status_terminal (job : JobRecord) (outcome : Except String RunState) :
    (process_avatar_background job outcome).status = Status.completed ∨
    (process_avatar_background job outcome).status = Status.failed := by
  cases outcome with
  | error e => right; rfl
  | ok run =>
    by_cases h : run.success
    · left; simp [process_avatar_background, h]
    · right; simp [process_avatar_background, h]

/-- If the checks at indices `calls, ..., calls+N-1` are still pending and
the check at `calls+N` reports SUCCEEDED, and the N sleeps fit in the
timeout budget, the loop returns the success payload after exactly N+1
further checks. -/
theorem pollLoop_pending_success (check : Nat → CheckStatus) (timeout interval : Nat)
    (N : Nat) :
    ∀ (fuel elapsed calls : Nat),
      (∀ k, k < N → stillPending (check (calls + k))) →
      (check (calls + N)).status = "SUCCEEDED" →
      elapsed + N * interval ≤ timeout →
      N < fuel →
      pollLoop check timeout interval fuel elapsed calls =
        some (GenOutcome.success ((check (calls + N)).model_url.getD ("")),
          calls + N + 1) := by
  induction N with
  | zero =>
    intro fuel elapsed calls hp hsucc hel hfuel
    cases fuel with
    | zero => omega
    | succ f =>
      rw [Nat.add_zero] at hsucc
      have hel' : ¬ (timeout < elapsed) := by omega
      rw [pollLoop, if_neg hel', if_pos hsucc]
      simp
  | succ n ih =>
    intro fuel elapsed calls hp hsucc hel hfuel
    cases fuel with
    | zero => omega
    | succ f =>
      have hmul : (n + 1) * interval = n * interval + interval := by ring
      have hel' : ¬ (timeout < elapsed) := by
        rw [hmul] at hel
        omega
      obtain ⟨hns, hnf⟩ := hp 0 (by omega)
      rw [Nat.add_zero] at hns hnf
      rw [pollLoop, if_neg hel', if_neg hns, if_neg hnf]
      have hidx : calls + 1 + n = calls + (n + 1) := by omega
      have hrec := ih f (elapsed + interval) (calls + 1)
        (by
          intro k hk
          have := hp (k + 1) (by omega)
          have hidx2 : calls + (k + 1) = calls + 1 + k := by omega
          rwa [hidx2] at this)
        (by rwa [hidx])
        (by rw [hmul] at hel; omega)
        (by omega)
      rw [hrec, hidx]

/-- If every check is still pending, the loop (given enough fuel) returns
the timed-out failure, having made exactly
`(timeout - elapsed) / interval + 1` further checks (0 when already past
the deadline). -/
theorem pollLoop_never_terminal (check : Nat → CheckStatus) (timeout interval : Nat)
    (hint : 0 < interval) (hp : ∀ k, stillPending (check k)) :
    ∀ (fuel : Nat), ∀ (elapsed calls : Nat), timeout + 2 ≤ fuel + elapsed →
      pollLoop check timeout interval fuel elapsed calls =
        some (GenOutcome.failure (timedOutMessage timeout),
          calls + (if timeout < elapsed then 0 else (timeout - elapsed) / interval + 1)) := by
  intro fuel
  induction fuel with
  | zero =>
    intro elapsed calls hge
    have hlt : timeout < elapsed := by omega
    rw [pollLoop, if_pos hlt, if_pos hlt]
    simp
  | succ f ih =>
    intro elapsed calls hge
    by_cases hlt : timeout < elapsed
    · rw [pollLoop, if_pos hlt, if_pos hlt]
      simp
    · obtain ⟨hns, hnf⟩ := hp calls
      rw [pollLoop, if_neg hlt, if_neg hns, if_neg hnf]
      rw [ih (elapsed + interval) (calls + 1) (by omega)]
      have hcount : calls + 1 + (if timeout < elapsed + interval then 0
          else (timeout - (elapsed + interval)) / interval + 1) =
          calls + (if timeout < elapsed then 0
            else (timeout - elapsed) / interval + 1) := by
        rw [if_neg hlt]
        by_cases h2 : timeout < elapsed + interval
        · rw [if_pos h2]
          have h0 : (timeout - elapsed) / interval = 0 := Nat.div_eq_of_lt (by omega)
          omega
        · rw [if_neg h2]
          have hle : interval ≤ timeout - elapsed := by omega
          have hdiv : (timeout - elapsed) / interval =
              (timeout - elapsed - interval) / interval + 1 :=
            Nat.div_eq_sub_div hint hle
          have hsub : timeout - (elapsed + interval) = timeout - elapsed - interval := by
            omega
          rw [hsub]
          omega
      rw [hcount]

/-! ### Claim theorems -/

/-- Claim C1: for every job and stage K in the fixed order, if stage K's
adapter (all earlier stages having succeeded) returns `success=false`, the
run fails immediately, the job is recorded Failed with `error` equal to
that stage's outcome message, and no adapter of any later stage is ever
invoked. -/
theorem stage_failure_stops_pipeline (behave : StageName → AdapterBehavior)
    (p : PipelinePaths) (K : Fin 4) (o : StageOutcome)
    (hpre : ∀ j : Nat, j < K.val →
      ∃ msg, behave (stageAt j) = AdapterBehavior.returns ⟨true, msg⟩)
    (hK : behave (stageAt K.val) = AdapterBehavior.returns o)
    (ho : o.success = false) :
    (process_avatar behave p).success = false ∧
    (process_avatar behave p).error = some o.message ∧
    (finalRecord (Except.ok (process_avatar behave p))).status = Status.failed ∧
    (finalRecord (Except.ok (process_avatar behave p))).error = some o.message ∧
    (process_avatar behave p).invoked.map Prod.fst = stageOrder.take (K.val + 1) ∧
    (∀ j : Nat, K.val < j → j < 4 →
      stageAt j ∉ (process_avatar behave p).invoked.map Prod.fst) := by
  have habort : abortError (behave (stageAt K.val)) = some o.message := by
    rw [hK]
    simp [abortError, ho]
  obtain ⟨h1, h2, h3, h4⟩ := abort_at_stage behave p K o.message hpre habort
  refine ⟨h1, h2, ?_, ?_, h3, h4⟩
  · simp [finalRecord, process_avatar_background, h1]
  · simp [finalRecord, process_avatar_background, h1, h2]

/-- Witness for `stage_failure_stops_pipeline`: the cartoonize stage fails
on a concrete adapter set. -/
theorem stage_failure_stops_pipeline_witness :
    (finalRecord (Except.ok (process_avatar wBehaveFailCartoon wPaths))).status =
        Status.failed ∧
    (finalRecord (Except.ok (process_avatar wBehaveFailCartoon wPaths))).error =
        some ("Cartoonization failed") ∧
    (process_avatar wBehaveFailCartoon wPaths).invoked.map Prod.fst =
        [StageName.faceCheck, StageName.cartoonize] := by
  have h := stage_failure_stops_pipeline wBehaveFailCartoon wPaths ⟨1, by decide⟩
    ⟨false, "Cartoonization failed"⟩
    (by
      intro j hj
      have hj' : j < 1 := hj
      interval_cases j
      exact ⟨"ok", rfl⟩)
    rfl rfl
  exact ⟨h.2.2.1, h.2.2.2.1, h.2.2.2.2.1⟩

/-- Claim C2: a terminal record holds exactly one of a non-empty output map
(Completed) or an error (Failed); `error` is never populated unless the
status is Failed. Stated for both terminal paths: a pipeline result and an
escaped exception. -/
theorem terminal_state_outputs_xor_error (behave : StageName → AdapterBehavior)
    (p : PipelinePaths) (e : String) :
    ((finalRecord (Except.ok (process_avatar behave p))).status = Status.completed →
      (finalRecord (Except.ok (process_avatar behave p))).output_files =
          some (outputFilesList p) ∧
      outputFilesList p ≠ [] ∧
      (finalRecord (Except.ok (process_avatar behave p))).error = none) ∧
    ((finalRecord (Except.ok (process_avatar behave p))).status = Status.failed →
      (finalRecord (Except.ok (process_avatar behave p))).error ≠ none ∧
      (finalRecord (Except.ok (process_avatar behave p))).output_files = none) ∧
    ((finalRecord (Except.ok (process_avatar behave p))).error ≠ none →
      (finalRecord (Except.ok (process_avatar behave p))).status = Status.failed) ∧
    ((finalRecord (Except.error e)).status = Status.failed ∧
      (finalRecord (Except.error e)).error = some e ∧
      (finalRecord (Except.error e)).output_files = none) := by
  refine ⟨?_, ?_, ?_, rfl, rfl, rfl⟩ <;> cases hs : (process_avatar behave p).success
  · intro hcomp
    have : (finalRecord (Except.ok (process_avatar behave p))).status = Status.failed := by
      simp [finalRecord, process_avatar_background, hs]
    rw [this] at hcomp
    exact absurd hcomp (by decide)
  · intro _
    have hout := runStages_success_outputs behave p stageOrder hs
    refine ⟨?_, by simp [outputFilesList], ?_⟩
    · simp only [finalRecord, process_avatar_background, hs, if_pos]
      exact hout
    · simp [finalRecord, process_avatar_background, hs, applyCallbacks_error, freshJob]
  · intro _
    constructor
    · simp [finalRecord, process_avatar_background, hs]
    · simp [finalRecord, process_avatar_background, hs, applyCallbacks_output_files, freshJob]
  · intro hfail
    have : (finalRecord (Except.ok (process_avatar behave p))).status = Status.completed := by
      simp [finalRecord, process_avatar_background, hs]
    rw [this] at hfail
    exact absurd hfail (by decide)
  · intro _
    simp [finalRecord, process_avatar_background, hs]
  · intro herr
    have : (finalRecord (Except.ok (process_avatar behave p))).error = none := by
      simp [finalRecord, process_avatar_background, hs, applyCallbacks_error, freshJob]
    exact absurd this herr

/-- Witness for `terminal_state_outputs_xor_error` on an all-success run. -/
theorem terminal_state_outputs_xor_error_witness :
    (finalRecord (Except.ok (process_avatar wBehaveOK wPaths))).output_files =
        some (outputFilesList wPaths) ∧
    (finalRecord (Except.ok (process_avatar wBehaveOK wPaths))).error = none := by
  have h := (terminal_state_outputs_xor_error wBehaveOK wPaths ("x")).1 rfl
  exact ⟨h.1, h.2.2⟩

/-- Claim C3: a run whose orchestration raises is caught at the boundary and
recorded Failed with a synthesized message; no job record ever ends the
background task in Processing (or Pending). The third conjunct covers an
adapter that throws mid-pipeline: the outer handler of `process_avatar`
converts it to a Failed record with message `"Pipeline error: " + str(e)`. -/
theorem exception_yields_failed_never_processing :
    (∀ (job : JobRecord) (outcome : Except String RunState),
      (process_avatar_background job outcome).status ≠ Status.processing ∧
      (process_avatar_background job outcome).status ≠ Status.pending) ∧
    (∀ (job : JobRecord) (e : String),
      (process_avatar_background job (Except.error e)).status = Status.failed ∧
      (process_avatar_background job (Except.error e)).error = some e) ∧
    (∀ (behave : StageName → AdapterBehavior) (p : PipelinePaths) (K : Fin 4)
        (m : String),
      (∀ j : Nat, j < K.val →
        ∃ msg, behave (stageAt j) = AdapterBehavior.returns ⟨true, msg⟩) →
      behave (stageAt K.val) = AdapterBehavior.throws m →
      (finalRecord (Except.ok (process_avatar behave p))).status = Status.failed ∧
      (finalRecord (Except.ok (process_avatar behave p))).error =
        some ("Pipeline error: " ++ m)) := by
  refine ⟨?_, fun job e => ⟨rfl, rfl⟩, ?_⟩
  · intro job outcome
    rcases background_status_terminal job outcome with h | h
    · rw [h]
      exact ⟨by decide, by decide⟩
    · rw [h]
      exact ⟨by decide, by decide⟩
  · intro behave p K m hpre hthrow
    have habort : abortError (behave (stageAt K.val)) = some ("Pipeline error: " ++ m) := by
      rw [hthrow]
      rfl
    obtain ⟨h1, h2, -, -⟩ := abort_at_stage behave p K _ hpre habort
    constructor
    · simp [finalRecord, process_avatar_background, h1]
    · simp [finalRecord, process_avatar_background, h1, h2]

/-- Witness for `exception_yields_failed_never_processing`: an escaped
exception and a throwing third-stage adapter. -/
theorem exception_yields_failed_never_processing_witness :
    (process_avatar_background freshJob (Except.error ("boom"))).status = Status.failed ∧
    (finalRecord (Except.ok (process_avatar wBehaveThrow wPaths))).error =
      some ("Pipeline error: connection reset") := by
  refine ⟨(exception_yields_failed_never_processing.2.1 freshJob ("boom")).1, ?_⟩
  have h := exception_yields_failed_never_processing.2.2 wBehaveThrow wPaths
    ⟨2, by decide⟩ ("connection reset")
    (by
      intro j hj
      have hj' : j < 2 := hj
      interval_cases j
      · exact ⟨"ok", rfl⟩
      · exact ⟨"ok", rfl⟩)
    rfl
  exact h.2

/-- Claim C4: the reported progress is a pure function of `currentStep` and
`status` agreeing with the fixed table (rendered by `progressSpecTable`),
so repeated queries without a transition agree; Completed always reports
100, a Pending record (no step yet) reports 0, and the value is always
within 0-100. -/
theorem progress_is_pure_table_function :
    (∀ (s : Status) (c : Option Step),
      get_status_progress s c = progressSpecTable s c) ∧
    (∀ (s : Status) (c : Option Step), get_status_progress s c ≤ 100) ∧
    (∀ c : Option Step, get_status_progress Status.completed c = 100) ∧
    get_status_progress Status.pending none = 0 := by
  refine ⟨?_, ?_, ?_, rfl⟩
  · intro s c
    cases s <;> rcases c with _ | st <;> first | rfl | (cases st <;> rfl)
  · intro s c
    cases s <;> rcases c with _ | st <;> first | decide | (cases st <;> decide)
  · intro c
    rcases c with _ | st
    · rfl
    · cases st <;> rfl

/-- Claim C6: the status writes of a job's lifetime move strictly forward
along Pending -> Processing -> terminal; the trace ends in a terminal
status, and the status callback (`update_job_status`) never changes
`status`. -/
theorem status_transitions_monotonic :
    (∀ outcome : Except String RunState,
      List.Chain' (fun a b => statusRank a < statusRank b) (statusTrace outcome) ∧
      ((statusTrace outcome).getLastD Status.pending).isTerminal = true) ∧
    (∀ (j : JobRecord) (st : Step) (m : String),
      (update_job_status j st m).status = j.status) := by
  refine ⟨?_, fun j st m => rfl⟩
  intro outcome
  rcases background_status_terminal freshJob outcome with h | h
  all_goals
    have h' : (finalRecord outcome).status = _ := h
    constructor
  · rw [statusTrace, h']
    exact List.chain'_cons.mpr ⟨by decide,
      List.chain'_cons.mpr ⟨by decide, List.chain'_singleton _⟩⟩
  · rw [statusTrace, h']
    rfl
  · rw [statusTrace, h']
    exact List.chain'_cons.mpr ⟨by decide,
      List.chain'_cons.mpr ⟨by decide, List.chain'_singleton _⟩⟩
  · rw [statusTrace, h']
    rfl

/-- Claim C10: a job failed through the orchestrator's failure path (stage
`success=false` or the pipeline's exception handler, both of which emit the
"failed" callback) has `current_step = "failed"`, and the status query then
reports progress 0: the implemented progress-on-failure policy is
reset-to-zero. -/
theorem failure_resets_progress_to_zero (behave : StageName → AdapterBehavior)
    (p : PipelinePaths) (h : (process_avatar behave p).success = false) :
    (finalRecord (Except.ok (process_avatar behave p))).status = Status.failed ∧
    (finalRecord (Except.ok (process_avatar behave p))).current_step = some Step.failed ∧
    get_status_progress (finalRecord (Except.ok (process_avatar behave p))).status
      (finalRecord (Except.ok (process_avatar behave p))).current_step = 0 := by
  obtain ⟨hof, e, herr, hlast⟩ := runStages_fail_shape behave p stageOrder h
  have hstat : (finalRecord (Except.ok (process_avatar behave p))).status =
      Status.failed := by
    simp [finalRecord, process_avatar_background, h]
  have hcs : (applyCallbacks { freshJob with status := Status.processing }
      (process_avatar behave p).callbacks).current_step = some Step.failed :=
    applyCallbacks_current_step _ _ (Step.failed, e) hlast
  have hstep : (finalRecord (Except.ok (process_avatar behave p))).current_step =
      some Step.failed := by
    simpa [finalRecord, process_avatar_background, h] using hcs
  refine ⟨hstat, hstep, ?_⟩
  rw [hstat, hstep]
  rfl

/-- Witness for `failure_resets_progress_to_zero` on the concrete failing
run. -/
theorem failure_resets_progress_to_zero_witness :
    (finalRecord (Except.ok (process_avatar wBehaveFailCartoon wPaths))).current_step =
        some Step.failed ∧
    get_status_progress
      (finalRecord (Except.ok (process_avatar wBehaveFailCartoon wPaths))).status
      (finalRecord (Except.ok (process_avatar wBehaveFailCartoon wPaths))).current_step
      = 0 := by
  have h := failure_resets_progress_to_zero wBehaveFailCartoon wPaths rfl
  exact ⟨h.2.1, h.2.2⟩

/-- Claim C5: for any check function and positive timeout and interval —
if the check is still pending N times and then terminal-success, with the N
mandatory sleeps fitting in the timeout, the wait makes exactly N+1 check
calls and returns the success payload; if the check never reaches a
terminal state, the wait returns the timed-out failure once elapsed time
exceeds the timeout, after exactly (hence at most) `timeout/interval + 1`
check calls. The sleep between consecutive checks is the model's
`elapsed + interval` step, so the call count is bounded exactly because the
loop never busy-polls. -/
theorem polling_wait_call_counts (check : Nat → CheckStatus)
    (timeout interval N : Nat) (hto : 0 < timeout) (hint : 0 < interval) :
    ((∀ k, k < N → stillPending (check k)) →
      (check N).status = "SUCCEEDED" →
      N * interval ≤ timeout →
      pollWait check timeout interval =
        some (GenOutcome.success ((check N).model_url.getD ("")), N + 1)) ∧
    ((∀ k, stillPending (check k)) →
      pollWait check timeout interval =
        some (GenOutcome.failure (timedOutMessage timeout),
          timeout / interval + 1) ∧
      timeout / interval + 1 ≤ timeout / interval + 1) := by
  constructor
  · intro hp hsucc hN
    have hfuel : N < timeout + 2 := by
      have h1 : N ≤ N * interval := Nat.le_mul_of_pos_right N hint
      omega
    have h := pollLoop_pending_success check timeout interval N (timeout + 2) 0 0
      (by
        intro k hk
        simpa using hp k hk)
      (by simpa using hsucc)
      (by simpa using hN)
      hfuel
    simpa [pollWait] using h
  · intro hp
    refine ⟨?_, le_refl _⟩
    have h := pollLoop_never_terminal check timeout interval hint hp (timeout + 2) 0 0
      (by omega)
    have h0 : ¬ (timeout < 0) := by omega
    simpa [pollWait, h0] using h

/-- Witness for `polling_wait_call_counts`: pending twice then success
gives 3 calls; a never-terminal check with timeout 300 and interval 5 gives
the timed-out failure after 61 calls. -/
theorem polling_wait_call_counts_witness :
    pollWait wCheckPendingTwice 300 5 =
      some (GenOutcome.success ("https://assets/model.glb"), 3) ∧
    pollWait wCheckNever 300 5 =
      some (GenOutcome.failure (timedOutMessage 300), 61) := by
  constructor
  · have h := (polling_wait_call_counts wCheckPendingTwice 300 5 2
        (by decide) (by decide)).1
      (by
        intro k hk
        interval_cases k
        · decide
        · decide)
      (by decide) (by decide)
    exact h
  · have h := ((polling_wait_call_counts wCheckNever 300 5 0
        (by decide) (by decide)).2
        (fun k => show stillPending { status := "PENDING" } from by decide)).1
    exact h

/-- Claim C7: an output fetch fails NotFound on an unknown job, NotReady on
a job that exists but is not Completed, MissingArtifact when the recorded
path's file is absent, and otherwise returns the artifact path; a Completed
record produced by the pipeline resolves all three kinds, and a Failed job
resolves none. -/
theorem fetch_output_error_taxonomy :
    (∀ (store : List (String × JobRecord)) (fe : String → Bool) (id : String)
        (kind : ArtifactKind),
      store.lookup id = none →
      fetch_output store fe id kind = Except.error ApiError.notFound) ∧
    (∀ (store : List (String × JobRecord)) (fe : String → Bool) (id : String)
        (kind : ArtifactKind) (job : JobRecord),
      store.lookup id = some job → job.status ≠ Status.completed →
      fetch_output store fe id kind = Except.error (ApiError.notReady job.status)) ∧
    (∀ (store : List (String × JobRecord)) (fe : String → Bool) (id : String)
        (kind : ArtifactKind) (job : JobRecord) (path : String),
      store.lookup id = some job → job.status = Status.completed →
      (job.output_files.getD []).lookup kind.key = some path →
      fe path = false →
      fetch_output store fe id kind = Except.error ApiError.missingArtifact) ∧
    (∀ (store : List (String × JobRecord)) (fe : String → Bool) (id : String)
        (kind : ArtifactKind) (job : JobRecord) (path : String),
      store.lookup id = some job → job.status = Status.completed →
      (job.output_files.getD []).lookup kind.key = some path →
      fe path = true →
      fetch_output store fe id kind = Except.ok path) ∧
    (∀ (behave : StageName → AdapterBehavior) (p : PipelinePaths) (kind : ArtifactKind),
      (finalRecord (Except.ok (process_avatar behave p))).status = Status.completed →
      ∃ path,
        ((finalRecord (Except.ok (process_avatar behave p))).output_files.getD
          []).lookup kind.key = some path) ∧
    (∀ (store : List (String × JobRecord)) (fe : String → Bool) (id : String)
        (kind : ArtifactKind) (job : JobRecord),
      store.lookup id = some job → job.status = Status.failed →
      ∀ path, fetch_output store fe id kind ≠ Except.ok path) := by
  refine ⟨?_, ?_, ?_, ?_, ?_, ?_⟩
  · intro store fe id kind h
    simp [fetch_output, h]
  · intro store fe id kind job h hne
    simp [fetch_output, h, hne]
  · intro store fe id kind job path h hc hl hfe
    simp [fetch_output, h, hc, hl, hfe]
  · intro store fe id kind job path h hc hl hfe
    simp [fetch_output, h, hc, hl, hfe]
  · intro behave p kind hcomp
    have hsucc : (process_avatar behave p).success = true := by
      cases hs : (process_avatar behave p).success
      · have : (finalRecord (Except.ok (process_avatar behave p))).status =
            Status.failed := by
          simp [finalRecord, process_avatar_background, hs]
        rw [this] at hcomp
        exact absurd hcomp (by decide)
      · rfl
    have hout := runStages_success_outputs behave p stageOrder hsucc
    have hof : (finalRecord (Except.ok (process_avatar behave p))).output_files =
        some (outputFilesList p) := by
      simp only [finalRecord, process_avatar_background, hsucc, if_pos]
      exact hout
    rw [hof]
    cases kind
    · exact ⟨p.cartoon_path, rfl⟩
    · exact ⟨p.model_3d_path, rfl⟩
    · exact ⟨p.stl_path, rfl⟩
  · intro store fe id kind job h hfail path
    simp [fetch_output, h, hfail]

/-- Witness for `fetch_output_error_taxonomy` on the concrete two-job
store: unknown id, a missing file behind a completed record, and a failed
job resolving nothing. -/
theorem fetch_output_error_taxonomy_witness :
    fetch_output wStore (fun _ => true) ("nope") ArtifactKind.cartoon =
      Except.error ApiError.notFound ∧
    fetch_output wStore (fun _ => false) ("done") ArtifactKind.model3d =
      Except.error ApiError.missingArtifact ∧
    fetch_output wStore (fun _ => true) ("bad") ArtifactKind.stl ≠
      Except.ok ("output/stl_files/job1_avatar.stl") := by
  refine ⟨?_, ?_, ?_⟩
  · exact fetch_output_error_taxonomy.1 wStore (fun _ => true) ("nope")
      ArtifactKind.cartoon rfl
  · exact fetch_output_error_taxonomy.2.2.1 wStore (fun _ => false) ("done")
      ArtifactKind.model3d wDoneRecord ("output/models_3d/job1_model.glb")
      rfl rfl rfl rfl
  · exact fetch_output_error_taxonomy.2.2.2.2.2 wStore (fun _ => true) ("bad")
      ArtifactKind.stl wFailRecord rfl rfl ("output/stl_files/job1_avatar.stl")

/-- Claim C8: a submission failing size or format validation is rejected
with the store unchanged — a status query for the id still answers NotFound
— and nothing scheduled; a valid submission leaves a Pending record in the
store when the call returns, answers `accepted` at once (no stage has run:
the record is still Pending), and schedules the background orchestration. -/
theorem upload_validation_and_pending_record (store : List (String × JobRecord))
    (job_id : String) (size max_mb : ℚ) (valid : Bool) (vmsg : String)
    (hfresh : store.lookup job_id = none) :
    ((max_mb < size ∨ valid = false) →
      (upload_photo store job_id size max_mb valid vmsg).store = store ∧
      get_status (upload_photo store job_id size max_mb valid vmsg).store job_id =
        Except.error ApiError.notFound ∧
      (upload_photo store job_id size max_mb valid vmsg).scheduled = []) ∧
    (¬ max_mb < size → valid = true →
      (upload_photo store job_id size max_mb valid vmsg).store.lookup job_id =
        some freshJob ∧
      freshJob.status = Status.pending ∧
      (upload_photo store job_id size max_mb valid vmsg).response =
        UploadResponse.accepted job_id Status.pending
          ("Photo uploaded successfully. Processing started.") ∧
      (upload_photo store job_id size max_mb valid vmsg).scheduled = [job_id]) := by
  constructor
  · intro hrej
    by_cases hbig : max_mb < size
    · refine ⟨by simp [upload_photo, hbig], ?_, by simp [upload_photo, hbig]⟩
      simp [upload_photo, hbig, get_status, hfresh]
    · have hinv : valid = false := by
        rcases hrej with h | h
        · exact absurd h hbig
        · exact h
      refine ⟨by simp [upload_photo, hbig, hinv], ?_, by simp [upload_photo, hbig, hinv]⟩
      simp [upload_photo, hbig, hinv, get_status, hfresh]
  · intro hok hvalid
    refine ⟨?_, rfl, ?_, ?_⟩
    · simp [upload_photo, hok, hvalid, List.lookup]
    · simp [upload_photo, hok, hvalid]
    · simp [upload_photo, hok, hvalid]

/-- Witness for `upload_validation_and_pending_record`: a 12 MB upload is
rejected against a 10 MB limit and leaves no record; a valid 2 MB upload
leaves a Pending record and schedules the task. -/
theorem upload_validation_and_pending_record_witness :
    get_status (upload_photo [] ("j9") (12 : ℚ) (10 : ℚ) true ("ok")).store ("j9") =
      Except.error ApiError.notFound ∧
    (upload_photo [] ("j9") (2 : ℚ) (10 : ℚ) true ("ok")).store.lookup ("j9") =
      some freshJob ∧
    (upload_photo [] ("j9") (2 : ℚ) (10 : ℚ) true ("ok")).scheduled = ["j9"] := by
  refine ⟨?_, ?_, ?_⟩
  · exact ((upload_validation_and_pending_record [] ("j9") 12 10 true ("ok") rfl).1
      (Or.inl (by norm_num))).2.1
  · exact ((upload_validation_and_pending_record [] ("j9") 2 10 true ("ok") rfl).2
      (by norm_num) rfl).1
  · exact ((upload_validation_and_pending_record [] ("j9") 2 10 true ("ok") rfl).2
      (by norm_num) rfl).2.2.2

/-- Claim C9: the FaceCheck stage fails exactly when no face is reported or
the face's bounding-box area is below 5 percent or above 90 percent of the
image area; otherwise it succeeds with diagnostics, and the next stage
(cartoonize) is invoked with the same unmodified input image. -/
theorem face_check_success_characterization (img : FaceImage) (p : PipelinePaths)
    (hw : 0 < img.width) (hh : 0 < img.height) :
    ((detect_face img).success = false ↔
      img.faces = [] ∨
      ∃ f rest, img.faces = f :: rest ∧
        (faceFrac img f < 5 / 100 ∨ (9 : ℚ) / 10 < faceFrac img f)) ∧
    ((detect_face img).success = true →
      (detect_face img).message = "Face detected successfully!" ∧
      ∃ f rest, img.faces = f :: rest ∧
        (detect_face img).face_area_frac = some (faceFrac img f) ∧
        (detect_face img).bounding_box = some (boundingBox f.1 f.2)) ∧
    (stageInput p StageName.faceCheck = p.input_path ∧
      stageInput p StageName.cartoonize = p.input_path) ∧
    (∀ (behave : StageName → AdapterBehavior) (x : String),
      (StageName.cartoonize, x) ∈ (process_avatar behave p).invoked →
      x = p.input_path) := by
  refine ⟨?_, ?_, ⟨rfl, rfl⟩, ?_⟩
  · cases himg : img.faces with
    | nil =>
      constructor
      · intro _
        exact Or.inl rfl
      · intro _
        simp [detect_face, himg]
    | cons f rest =>
      by_cases h1 : faceFrac img f < 5 / 100
      · constructor
        · intro _
          exact Or.inr ⟨f, rest, rfl, Or.inl h1⟩
        · intro _
          simp [detect_face, himg, h1]
      · by_cases h2 : (9 : ℚ) / 10 < faceFrac img f
        · constructor
          · intro _
            exact Or.inr ⟨f, rest, rfl, Or.inr h2⟩
          · intro _
            simp [detect_face, himg, h1, h2]
        · constructor
          · intro hfalse
            have : (detect_face img).success = true := by
              simp [detect_face, himg, h1, h2]
            rw [this] at hfalse
            exact absurd hfalse (by decide)
          · rintro (hnil | ⟨g, rest2, heq, hbad⟩)
            · exact absurd hnil (by simp)
            · injection heq with hf hr
              subst hf
              rcases hbad with hb | hb
              · exact absurd hb h1
              · exact absurd hb h2
  · intro hs
    cases himg : img.faces with
    | nil =>
      rw [show (detect_face img).success = false by simp [detect_face, himg]] at hs
      exact absurd hs (by decide)
    | cons f rest =>
      by_cases h1 : faceFrac img f < 5 / 100
      · rw [show (detect_face img).success = false by simp [detect_face, himg, h1]] at hs
        exact absurd hs (by decide)
      · by_cases h2 : (9 : ℚ) / 10 < faceFrac img f
        · rw [show (detect_face img).success = false by
            simp [detect_face, himg, h1, h2]] at hs
          exact absurd hs (by decide)
        · refine ⟨by simp [detect_face, himg, h1, h2], f, rest, rfl, ?_, ?_⟩
          · simp [detect_face, himg, h1, h2]
          · simp [detect_face, himg, h1, h2]
  · intro behave x hmem
    have hx := runStages_invoked_input behave p stageOrder StageName.cartoonize x hmem
    simpa [stageInput] using hx

/-- Witness for `face_check_success_characterization`: a 100x100 image with
a 30x30 face succeeds; a tiny 2x2 face fails the 5 percent floor. -/
theorem face_check_success_characterization_witness :
    (detect_face wImgGood).success = true ∧
    (detect_face wImgGood).message = "Face detected successfully!" ∧
    (detect_face wImgSmallFace).success = false := by
  have hfrac : faceFrac { width := 100, height := 100, faces := [((10, 10), [(40, 40)])] }
      ((10, 10), [(40, 40)]) = 9 / 100 := by
    norm_num [faceFrac, boundingBox, BoundingBox.w, BoundingBox.h]
  have hsucc : (detect_face wImgGood).success = true := by
    simp only [detect_face, wImgGood, hfrac]
    norm_num
  refine ⟨hsucc, ?_, ?_⟩
  · exact (((face_check_success_characterization wImgGood wPaths (by decide)
      (by decide)).2.1) hsucc).1
  · exact ((face_check_success_characterization wImgSmallFace wPaths (by decide)
      (by decide)).1).mpr
      (Or.inr ⟨((10, 10), [(12, 12)]), [], rfl, Or.inl (by
        norm_num [faceFrac, boundingBox, wImgSmallFace, BoundingBox.w,
          BoundingBox.h])⟩)

end Avatar
